import Mathlib

/-!
Shallow embedding of `src/cmd/mod_cmd.rs` (sn0int module lifecycle
orchestrator): the single-module update orchestrator `update`, the batch
update loop, the reload coordinator and the listing view of the `run`
dispatcher.  External collaborators (registry client, worker pool,
AutoUpdater ledger, engine, readline shell) live outside this file of the
repository; they are modelled as oracle fields of `Env` or, where their
behaviour decides a claim, from the specification (marked
`Modelled from the spec:`).  Side effects are recorded as an event trace.
-/

namespace ModCmd

/-- Module descriptor (crate::engine::Module) as consumed by mod_cmd.rs:
identity, canonical display name, version string, description, source tag
and the private-visibility flag. -/
structure Module where
  id : String
  canonical : String
  version : String
  description : String
  source : String
  isPrivate : Bool
deriving Repr, DecidableEq

/-- Modelled from the spec: exact match on the source tag
(Module::source_equals, not under src/). -/
def Module.source_equals (m : Module) (s : String) : Bool :=
  m.source == s

/-- Modelled from the spec: the AutoUpdate Ledger (crate::update::AutoUpdater,
not under src/): a persisted set of canonical module names known to be
outdated; `is_outdated` tests membership and `updated` marks a module as
current (not outdated). -/
structure AutoUpdater where
  outdated : List String
deriving Repr, DecidableEq

/-- Modelled from the spec: the ledger records this canonical name as outdated. -/
def AutoUpdater.is_outdated (a : AutoUpdater) (name : String) : Bool :=
  a.outdated.contains name

/-- Modelled from the spec: mark the module as current (not outdated). -/
def AutoUpdater.updated (a : AutoUpdater) (name : String) : AutoUpdater :=
  ⟨a.outdated.filter (fun n => n ≠ name)⟩

/-- Version Query Result: `client.query_module` returns the optional latest
released version. -/
structure QueryInfos where
  latest : Option String
deriving Repr, DecidableEq

/-- Observable side effects of a command, in program order. -/
inductive Event where
  | queryCall (id : String)
  | installCall (id : String) (version : Option String)
  | successMsg (msg : String)
  | errorMsg (msg : String)
  | debugMsg (msg : String)
  | printLine (line : String)
  | ledgerLoad
  | ledgerSave (ledger : AutoUpdater)
  | reloadTrigger
  | cacheReload
deriving Repr, DecidableEq

def Event.isInstallCall : Event → Bool
  | .installCall _ _ => true
  | _ => false

def Event.isLedgerLoad : Event → Bool
  | .ledgerLoad => true
  | _ => false

def Event.isLedgerSave : Event → Bool
  | .ledgerSave _ => true
  | _ => false

/-- Oracle for the external collaborators of mod_cmd.rs: registry client,
registry installer/search, engine reload and the persisted ledger. -/
structure Env where
  query_module : String → Except String QueryInfos
  run_install : String → Option String → Except String Unit
  run_search : Except String Unit
  reload_modules : Except String (List Module)
  client_new : Except String Unit
  autoupdater_load : Except String AutoUpdater
  autoupdater_save : AutoUpdater → Except String Unit

/-- Modelled from the spec: the Blocking Task Runner (worker::spawn_fn, not
under src/) runs the labelled operation and returns its result synchronously;
the progress display is pure I/O and not observable here. -/
def spawn_fn {α : Type} (label : String) (f : Unit → Except String α)
    (show_progress : Bool) : Except String α :=
  f ()

/-- The single-module update orchestrator (fn update in mod_cmd.rs): query the
registry for the latest version, fail distinctly when no version was ever
released, reinstall on exact string inequality and emit a success notice. -/
def update (env : Env) (m : Module) : List Event × Except String Unit :=
  let name := m.canonical
  let installed := m.version
  let label := "Searching for updates " ++ name
  match spawn_fn label (fun _ => env.query_module m.id) true with
  | .error e => ([Event.queryCall m.id], .error e)
  | .ok infos =>
    match infos.latest with
    | none =>
      ([Event.queryCall m.id], .error "Module doesn\x27t have any released versions")
    | some latest =>
      if installed ≠ latest then
        let label2 := "Updating " ++ name ++ ": " ++ reprStr installed ++ " -> " ++ reprStr latest
        match spawn_fn label2 (fun _ => env.run_install m.id none) true with
        | .error e => ([Event.queryCall m.id, Event.installCall m.id none], .error e)
        | .ok _ =>
          ([Event.queryCall m.id, Event.installCall m.id none,
            Event.successMsg ("Updated " ++ name ++ ": " ++ reprStr installed ++ " -> " ++ reprStr latest)],
           .ok ())
      else
        ([Event.queryCall m.id], .ok ())

/-- One iteration of the batch update loop in the Update arm of `run`: skip
private modules with a debug log, report per-module failures, and mark
successful modules as current in the ledger. -/
def updateLoopStep (env : Env) (acc : List Event × AutoUpdater) (m : Module) :
    List Event × AutoUpdater :=
  let canonical := m.canonical
  if m.isPrivate then
    (acc.1 ++ [Event.debugMsg (canonical ++ " is a private module, skipping")], acc.2)
  else
    match update env m with
    | (evs, .error err) =>
      (acc.1 ++ evs ++ [Event.errorMsg ("Failed to update " ++ canonical ++ ": " ++ err)], acc.2)
    | (evs, .ok _) =>
      (acc.1 ++ evs, acc.2.updated canonical)

/-- The batch update loop over the engine module list. -/
def updateLoop (env : Env) (modules : List Module) (autoupdate : AutoUpdater) :
    List Event × AutoUpdater :=
  modules.foldl (updateLoopStep env) ([], autoupdate)

/-- In-memory module set owner (crate::engine::Engine) as consumed here. -/
structure Engine where
  modules : List Module
deriving Repr, DecidableEq

def Engine.list (e : Engine) : List Module :=
  e.modules

/-- Modelled from the spec: engine `get(canonical_name) -> Module Descriptor
or NotFound`, resolving a canonical name in the current module set. -/
def Engine.get (e : Engine) (name : String) : Except String Module :=
  match e.modules.find? (fun m => m.canonical == name) with
  | some m => .ok m
  | none => .error ("module not found: " ++ name)

/-- Shell session state (crate::shell::Readline) as consumed here: the engine
and the active module selection. -/
structure Readline where
  engine : Engine
  module : Option Module
deriving Repr, DecidableEq

/-- Modelled from the spec: Readline::take_module removes the active selection
from the session and returns it. -/
def Readline.take_module (rl : Readline) : Option Module × Readline :=
  (rl.module, { rl with module := none })

/-- Modelled from the spec: Readline::set_module sets the active selection. -/
def Readline.set_module (rl : Readline) (m : Module) : Readline :=
  { rl with module := some m }

/-- Subcommands of the `mod` command (enum SubCommand in mod_cmd.rs), after
argument parsing. -/
inductive SubCommand where
  | listCmd (source : Option String) (outdated : Bool)
  | installCmd (moduleId : String) (version : Option String)
  | searchCmd (query : String)
  | reloadCmd
  | updateCmd
deriving Repr, DecidableEq

/-- One iteration of the List arm of `run`: apply the source filter, render
the header (with the `[outdated]` marker when the ledger says so), skip
non-outdated modules when `--outdated` was given, and print header and
description lines. -/
def listEntry (autoupdate : AutoUpdater) (sourceFilter : Option String)
    (outdatedFlag : Bool) (m : Module) : List Event :=
  if (match sourceFilter with
      | some s => m.source_equals s
      | none => true) then
    let canonical := m.canonical
    let out := canonical ++ " (" ++ m.version ++ ")"
    if autoupdate.is_outdated canonical then
      [Event.printLine (out ++ " [outdated]"), Event.printLine ("\t" ++ m.description)]
    else if outdatedFlag then
      []
    else
      [Event.printLine out, Event.printLine ("\t" ++ m.description)]
  else
    []

/-- The List arm of `run`, over the engine module list in iteration order. -/
def listLines (autoupdate : AutoUpdater) (sourceFilter : Option String)
    (outdatedFlag : Bool) (modules : List Module) : List Event :=
  modules.flatMap (listEntry autoupdate sourceFilter outdatedFlag)

/-- The Reload arm of `run`: take the active selection (capturing its
canonical name), reload the engine module set, invalidate the readline module
cache, and re-resolve the captured name in the fresh module set. -/
def reloadAction (env : Env) (rl : Readline) :
    List Event × Readline × Except String Unit :=
  let taken := rl.take_module
  let current := taken.1.map (fun m => m.canonical)
  let rl1 := taken.2
  match env.reload_modules with
  | .error e => ([], rl1, .error e)
  | .ok newModules =>
    let rl2 : Readline := { rl1 with engine := ⟨newModules⟩ }
    match current with
    | none => ([Event.cacheReload], rl2, .ok ())
    | some name =>
      match rl2.engine.get name with
      | .ok m => ([Event.cacheReload], rl2.set_module m, .ok ())
      | .error _ => ([Event.cacheReload], rl2, .ok ())

/-- The `run` dispatcher of mod_cmd.rs, after argument parsing: routes each
subcommand, with install and update triggering the reload action afterwards
(the recursive self-invocation with the fixed `mod reload` argument vector,
inlined to its direct equivalent). -/
def run (env : Env) (rl : Readline) (cmd : SubCommand) :
    List Event × Readline × Except String Unit :=
  match cmd with
  | .listCmd sourceFilter outdatedFlag =>
    match env.autoupdater_load with
    | .error e => ([Event.ledgerLoad], rl, .error e)
    | .ok autoupdate =>
      (Event.ledgerLoad :: listLines autoupdate sourceFilter outdatedFlag rl.engine.list,
       rl, .ok ())
  | .installCmd moduleId version =>
    match env.run_install moduleId version with
    | .error e => ([Event.installCall moduleId version], rl, .error e)
    | .ok _ =>
      let r := reloadAction env rl
      (Event.installCall moduleId version :: Event.reloadTrigger :: r.1, r.2.1, r.2.2)
  | .searchCmd _ =>
    match env.run_search with
    | .error e => ([], rl, .error e)
    | .ok _ => ([], rl, .ok ())
  | .reloadCmd => reloadAction env rl
  | .updateCmd =>
    match env.client_new with
    | .error e => ([], rl, .error e)
    | .ok _ =>
      match env.autoupdater_load with
      | .error e => ([Event.ledgerLoad], rl, .error e)
      | .ok autoupdate =>
        let lp := updateLoop env rl.engine.list autoupdate
        match env.autoupdater_save lp.2 with
        | .error e => (Event.ledgerLoad :: lp.1 ++ [Event.ledgerSave lp.2], rl, .error e)
        | .ok _ =>
          let r := reloadAction env rl
          (Event.ledgerLoad :: lp.1 ++ Event.ledgerSave lp.2 :: Event.reloadTrigger :: r.1,
           r.2.1, r.2.2)

/-- The set of modules the Listing View displays, written as the spec states
it: the source filter is an exact match on the source tag, and `--outdated`
keeps exactly the modules the ledger marks outdated, in engine order. -/
def listDisplayedSpec (autoupdate : AutoUpdater) (sourceFilter : Option String)
    (outdatedFlag : Bool) (modules : List Module) : List Module :=
  modules.filter (fun m =>
    (match sourceFilter with
     | some s => m.source == s
     | none => true)
    && (!outdatedFlag || autoupdate.is_outdated m.canonical))

/-- The two output lines of one displayed module: header (with the marker when
outdated) and description. -/
def renderEntry (autoupdate : AutoUpdater) (m : Module) : List Event :=
  let out := m.canonical ++ " (" ++ m.version ++ ")"
  let header := if autoupdate.is_outdated m.canonical then out ++ " [outdated]" else out
  [Event.printLine header, Event.printLine ("\t" ++ m.description)]

/-- Concrete fixture: an up-to-date public module. -/
def mAlpha : Module :=
  ⟨"alpha-id", "alpha", "1.0", "alpha module", "core", false⟩

/-- Concrete fixture: a public module with a newer registry version. -/
def mBeta : Module :=
  ⟨"beta-id", "beta", "1.0", "beta module", "core", false⟩

/-- Concrete fixture: a public module with no released versions. -/
def mGamma : Module :=
  ⟨"gamma-id", "gamma", "1.0", "gamma module", "extra", false⟩

/-- Concrete fixture: a public module whose registry query errors. -/
def mDelta : Module :=
  ⟨"delta-id", "delta", "1.0", "delta module", "core", false⟩

/-- Concrete fixture: a private module. -/
def mPriv : Module :=
  ⟨"priv-id", "priv", "1.0", "private module", "core", true⟩

/-- Concrete fixture: a stale pre-reload copy of alpha. -/
def mAlphaOld : Module :=
  ⟨"alpha-id", "alpha", "0.9", "old alpha module", "core", false⟩

/-- Concrete fixture environment: registry knows alpha (latest 1.0), beta
(latest 2.0) and gamma (no released versions); everything else is a network
error; installs and persistence succeed; the engine reloads to `[mAlpha]`;
the persisted ledger initially marks alpha outdated. -/
def demoEnv : Env :=
  { query_module := fun i =>
      if i == "alpha-id" then .ok ⟨some "1.0"⟩
      else if i == "beta-id" then .ok ⟨some "2.0"⟩
      else if i == "gamma-id" then .ok ⟨none⟩
      else .error "network unreachable"
    run_install := fun _ _ => .ok ()
    run_search := .ok ()
    reload_modules := .ok [mAlpha]
    client_new := .ok ()
    autoupdater_load := .ok ⟨["alpha"]⟩
    autoupdater_save := fun _ => .ok () }

/-- Concrete fixture environment whose engine reload fails. -/
def failEnv : Env :=
  { demoEnv with reload_modules := .error "reload failed" }

/-- Concrete fixture session: four installed modules, nothing selected. -/
def rlDemo : Readline :=
  ⟨⟨[mAlpha, mBeta, mGamma, mPriv]⟩, none⟩

lemma updateLoopStep_acc (env : Env) (E : List Event) (a : AutoUpdater) (m : Module) :
    updateLoopStep env (E, a) m
      = (E ++ (updateLoopStep env ([], a) m).1, (updateLoopStep env ([], a) m).2) := by
  unfold updateLoopStep
  rcases h : update env m with ⟨evs, res⟩
  by_cases hp : m.isPrivate <;> cases res <;> simp [hp, h]

lemma updateLoop_acc (env : Env) (l : List Module) (E : List Event) (a : AutoUpdater) :
    List.foldl (updateLoopStep env) (E, a) l
      = (E ++ (updateLoop env l a).1, (updateLoop env l a).2) := by
  induction l generalizing E a with
  | nil => simp [updateLoop]
  | cons m ms ih =>
    rcases hs : updateLoopStep env ([], a) m with ⟨sE, sa⟩
    simp only [updateLoop, List.foldl_cons]
    rw [updateLoopStep_acc env E a m, hs, ih]
    simp only [updateLoop] at ih
    rw [ih]
    simp only [List.append_assoc]
    rfl

lemma updateLoop_cons (env : Env) (m : Module) (ms : List Module) (a : AutoUpdater) :
    updateLoop env (m :: ms) a
      = ((updateLoopStep env ([], a) m).1
           ++ (updateLoop env ms (updateLoopStep env ([], a) m).2).1,
         (updateLoop env ms (updateLoopStep env ([], a) m).2).2) := by
  rcases hs : updateLoopStep env ([], a) m with ⟨sE, sa⟩
  simp only [updateLoop, List.foldl_cons]
  rw [show updateLoopStep env ([], a) m = (sE, sa) from hs, updateLoop_acc]
  simp [updateLoop]

lemma updateLoop_append (env : Env) (l1 l2 : List Module) (a : AutoUpdater) :
    updateLoop env (l1 ++ l2) a
      = ((updateLoop env l1 a).1 ++ (updateLoop env l2 (updateLoop env l1 a).2).1,
         (updateLoop env l2 (updateLoop env l1 a).2).2) := by
  rcases h1 : updateLoop env l1 a with ⟨E1, a1⟩
  have h1f : List.foldl (updateLoopStep env) ([], a) l1 = (E1, a1) := h1
  simp only [updateLoop, List.foldl_append]
  rw [h1f, updateLoop_acc]
  simp [updateLoop]

lemma updated_is_outdated_self (a : AutoUpdater) (n : String) :
    (a.updated n).is_outdated n = false := by
  simp [AutoUpdater.updated, AutoUpdater.is_outdated]

lemma updated_is_outdated_false (a : AutoUpdater) (c n : String)
    (h : a.is_outdated c = false) : (a.updated n).is_outdated c = false := by
  simp [AutoUpdater.updated, AutoUpdater.is_outdated] at *
  intro hc
  exact absurd hc h

lemma updateLoopStep_ledger (env : Env) (E : List Event) (a : AutoUpdater) (m : Module) :
    (updateLoopStep env (E, a) m).2 = a
      ∨ (updateLoopStep env (E, a) m).2 = a.updated m.canonical := by
  unfold updateLoopStep
  rcases h : update env m with ⟨evs, res⟩
  by_cases hp : m.isPrivate <;> cases res <;> simp [hp, h]

lemma updateLoop_is_outdated_false (env : Env) (l : List Module) (a : AutoUpdater)
    (c : String) (h : a.is_outdated c = false) :
    (updateLoop env l a).2.is_outdated c = false := by
  induction l generalizing a with
  | nil => simpa [updateLoop]
  | cons m ms ih =>
    rw [updateLoop_cons]
    rcases updateLoopStep_ledger env [] a m with hl | hl <;> rw [hl] <;>
      [exact ih a h; exact ih _ (updated_is_outdated_false a c m.canonical h)]

lemma update_events_shape (env : Env) (m : Module) :
    (update env m).1 = [Event.queryCall m.id]
      ∨ (update env m).1 = [Event.queryCall m.id, Event.installCall m.id none]
      ∨ ∃ s, (update env m).1
          = [Event.queryCall m.id, Event.installCall m.id none, Event.successMsg s] := by
  rcases hq : env.query_module m.id with e | ⟨_ | latest⟩ <;>
    simp only [update, spawn_fn, hq]
  · simp
  · simp
  · by_cases hv : m.version ≠ latest
    · rcases hi : env.run_install m.id none with e2 | u <;> simp [hv, hi]
    · simp [hv]

lemma update_installCall_mem (env : Env) (m : Module) (i : String) (v : Option String)
    (h : Event.installCall i v ∈ (update env m).1) : i = m.id ∧ v = none := by
  rcases update_events_shape env m with hs | hs | ⟨s, hs⟩ <;> rw [hs] at h
  · simp at h
  · simp at h
    exact h
  · simp at h
    exact h

lemma update_no_ledger_events (env : Env) (m : Module) (e : Event)
    (he : e ∈ (update env m).1) :
    e.isLedgerLoad = false ∧ e.isLedgerSave = false := by
  rcases update_events_shape env m with hs | hs | ⟨s, hs⟩ <;> rw [hs] at he <;>
    simp at he
  · simp [he, Event.isLedgerLoad, Event.isLedgerSave]
  · rcases he with h | h <;> simp [h, Event.isLedgerLoad, Event.isLedgerSave]
  · rcases he with h | h | h <;> simp [h, Event.isLedgerLoad, Event.isLedgerSave]

lemma updateLoopStep_installCall (env : Env) (a : AutoUpdater) (m : Module)
    (i : String) (v : Option String)
    (h : Event.installCall i v ∈ (updateLoopStep env ([], a) m).1) :
    m.isPrivate = false ∧ Event.installCall i v ∈ (update env m).1 := by
  unfold updateLoopStep at h
  by_cases hp : m.isPrivate
  · simp [hp] at h
  · rcases hu : update env m with ⟨evs, res⟩
    rw [hu] at h
    cases res with
    | error err =>
      simp [hp] at h
      exact ⟨by simpa using hp, h⟩
    | ok u =>
      simp [hp] at h
      exact ⟨by simpa using hp, h⟩

lemma updateLoop_installCall (env : Env) (l : List Module) (a : AutoUpdater)
    (i : String) (v : Option String)
    (h : Event.installCall i v ∈ (updateLoop env l a).1) :
    ∃ m, m ∈ l ∧ m.isPrivate = false ∧ Event.installCall i v ∈ (update env m).1 := by
  induction l generalizing a with
  | nil => simp [updateLoop] at h
  | cons m ms ih =>
    rw [updateLoop_cons] at h
    rcases List.mem_append.mp h with h1 | h1
    · exact ⟨m, List.mem_cons_self m ms, updateLoopStep_installCall env a m i v h1⟩
    · rcases ih _ h1 with ⟨m2, hm2, hrest⟩
      exact ⟨m2, List.mem_cons_of_mem m hm2, hrest⟩

lemma updateLoopStep_private (env : Env) (E : List Event) (a : AutoUpdater)
    (m : Module) (hp : m.isPrivate = true) :
    updateLoopStep env (E, a) m
      = (E ++ [Event.debugMsg (m.canonical ++ " is a private module, skipping")], a) := by
  unfold updateLoopStep
  simp [hp]

lemma updateLoopStep_error (env : Env) (E : List Event) (a : AutoUpdater)
    (m : Module) (evs : List Event) (err : String) (hp : m.isPrivate = false)
    (hu : update env m = (evs, .error err)) :
    updateLoopStep env (E, a) m
      = (E ++ evs ++ [Event.errorMsg ("Failed to update " ++ m.canonical ++ ": " ++ err)], a) := by
  unfold updateLoopStep
  simp [hp, hu]

lemma updateLoopStep_ok (env : Env) (E : List Event) (a : AutoUpdater)
    (m : Module) (evs : List Event) (u : Unit) (hp : m.isPrivate = false)
    (hu : update env m = (evs, .ok u)) :
    updateLoopStep env (E, a) m = (E ++ evs, a.updated m.canonical) := by
  unfold updateLoopStep
  simp [hp, hu]

lemma updateLoopStep_no_ledger (env : Env) (a : AutoUpdater) (m : Module) (e : Event)
    (he : e ∈ (updateLoopStep env ([], a) m).1) :
    e.isLedgerLoad = false ∧ e.isLedgerSave = false := by
  unfold updateLoopStep at he
  by_cases hp : m.isPrivate
  · simp [hp] at he
    simp [he, Event.isLedgerLoad, Event.isLedgerSave]
  · rcases hu : update env m with ⟨evs, res⟩
    rw [hu] at he
    cases res with
    | error err =>
      simp [hp] at he
      rcases he with h | h
      · exact update_no_ledger_events env m e (by rw [hu]; exact h)
      · simp [h, Event.isLedgerLoad, Event.isLedgerSave]
    | ok u =>
      simp [hp] at he
      exact update_no_ledger_events env m e (by rw [hu]; exact he)

lemma updateLoop_no_ledger (env : Env) (l : List Module) (a : AutoUpdater) (e : Event)
    (he : e ∈ (updateLoop env l a).1) :
    e.isLedgerLoad = false ∧ e.isLedgerSave = false := by
  induction l generalizing a with
  | nil => simp [updateLoop] at he
  | cons m ms ih =>
    rw [updateLoop_cons] at he
    rcases List.mem_append.mp he with h | h
    · exact updateLoopStep_no_ledger env a m e h
    · exact ih _ h

lemma listEntry_eq (au : AutoUpdater) (sf : Option String) (flag : Bool) (m : Module) :
    listEntry au sf flag m
      = if ((match sf with
             | some s => m.source == s
             | none => true)
            && (!flag || au.is_outdated m.canonical)) then renderEntry au m else [] := by
  unfold listEntry renderEntry Module.source_equals
  rcases sf with _ | s
  · cases hout : au.is_outdated m.canonical <;> cases flag <;> simp [hout]
  · cases hsrc : m.source == s <;> cases hout : au.is_outdated m.canonical <;>
      cases flag <;> simp [hsrc, hout]

lemma listEntry_printLine (au : AutoUpdater) (sf : Option String) (flag : Bool)
    (m : Module) (e : Event) (he : e ∈ listEntry au sf flag m) :
    ∃ s, e = Event.printLine s := by
  rw [listEntry_eq] at he
  split at he
  · unfold renderEntry at he
    simp at he
    rcases he with h | h <;> exact ⟨_, h⟩
  · simp at he

lemma listLines_no_ledger (au : AutoUpdater) (sf : Option String) (flag : Bool)
    (modules : List Module) (e : Event) (he : e ∈ listLines au sf flag modules) :
    e.isLedgerLoad = false ∧ e.isLedgerSave = false := by
  unfold listLines at he
  rcases List.mem_flatMap.mp he with ⟨m, hm, hme⟩
  rcases listEntry_printLine au sf flag m e hme with ⟨s, rfl⟩
  simp [Event.isLedgerLoad, Event.isLedgerSave]

lemma flatMap_if_filter {α β : Type} (p : α → Bool) (f : α → List β) (l : List α) :
    (l.flatMap (fun m => if p m then f m else [])) = (l.filter p).flatMap f := by
  induction l with
  | nil => rfl
  | cons m ms ih => cases hp : p m <;> simp [hp, ih]

lemma reloadAction_events (env : Env) (rl : Readline) :
    (reloadAction env rl).1 = [] ∨ (reloadAction env rl).1 = [Event.cacheReload] := by
  unfold reloadAction Readline.take_module
  rcases env.reload_modules with e | newModules
  · simp
  · rcases rl.module with _ | m
    · simp
    · simp only
      rcases hg : (Engine.mk newModules).get m.canonical with e2 | mm <;> simp [hg]

/-- C2: for a module whose registry query reports no released version at all,
the single-module update fails with the distinct no-released-versions error;
the batch loop reports that failure for the module, leaves the ledger
untouched for it, and continues processing the remaining modules. -/
theorem update_no_released_versions (env : Env) (m : Module) (a : AutoUpdater)
    (ms1 ms2 : List Module) (hp : m.isPrivate = false)
    (hq : env.query_module m.id = .ok ⟨none⟩) :
    update env m = ([Event.queryCall m.id],
        .error "Module doesn\x27t have any released versions")
    ∧ updateLoop env (ms1 ++ m :: ms2) a
      = ((updateLoop env ms1 a).1
           ++ Event.queryCall m.id
             :: Event.errorMsg ("Failed to update " ++ m.canonical ++ ": "
                  ++ "Module doesn\x27t have any released versions")
             :: (updateLoop env ms2 (updateLoop env ms1 a).2).1,
         (updateLoop env ms2 (updateLoop env ms1 a).2).2) := by
  have hu : update env m
      = ([Event.queryCall m.id], .error "Module doesn\x27t have any released versions") := by
    simp [update, spawn_fn, hq]
  refine ⟨hu, ?_⟩
  rw [updateLoop_append, updateLoop_cons,
      updateLoopStep_error env [] (updateLoop env ms1 a).2 m _ _ hp hu]
  simp

/-- C3: a single failing module during the batch update produces the
Failed-to-update report for that module and the loop still runs the
single-module update over every subsequent module. -/
theorem update_partial_failure_isolated (env : Env) (m : Module) (a : AutoUpdater)
    (ms1 ms2 : List Module) (evs : List Event) (err : String)
    (hp : m.isPrivate = false) (hu : update env m = (evs, .error err)) :
    updateLoop env (ms1 ++ m :: ms2) a
      = ((updateLoop env ms1 a).1 ++ evs
           ++ Event.errorMsg ("Failed to update " ++ m.canonical ++ ": " ++ err)
             :: (updateLoop env ms2 (updateLoop env ms1 a).2).1,
         (updateLoop env ms2 (updateLoop env ms1 a).2).2) := by
  rw [updateLoop_append, updateLoop_cons,
      updateLoopStep_error env [] (updateLoop env ms1 a).2 m evs err hp hu]
  simp

/-- C4: a private module is skipped by the batch update loop with only a debug
log: its pass contributes no registry query, no install, no error report and
no ledger change, and the loop continues with the rest. -/
theorem private_module_skipped (env : Env) (m : Module) (a : AutoUpdater)
    (ms1 ms2 : List Module) (hp : m.isPrivate = true) :
    updateLoop env (ms1 ++ m :: ms2) a
      = ((updateLoop env ms1 a).1
           ++ Event.debugMsg (m.canonical ++ " is a private module, skipping")
             :: (updateLoop env ms2 (updateLoop env ms1 a).2).1,
         (updateLoop env ms2 (updateLoop env ms1 a).2).2) := by
  rw [updateLoop_append, updateLoop_cons,
      updateLoopStep_private env [] (updateLoop env ms1 a).2 m hp]
  simp

/-- C6: the single-module update decides by exact string equality of installed
and latest versions: equality means no install call and no notice; any
difference triggers the install call, and on its completion a success notice
naming the module and both versions. -/
theorem update_exact_equality (env : Env) (m : Module) (latest : String)
    (hq : env.query_module m.id = .ok ⟨some latest⟩) :
    (m.version = latest → update env m = ([Event.queryCall m.id], .ok ()))
    ∧ (m.version ≠ latest →
        Event.installCall m.id none ∈ (update env m).1
        ∧ (env.run_install m.id none = .ok () →
            update env m
              = ([Event.queryCall m.id, Event.installCall m.id none,
                  Event.successMsg ("Updated " ++ m.canonical ++ ": "
                    ++ reprStr m.version ++ " -> " ++ reprStr latest)], .ok ()))) := by
  constructor
  · intro hv
    simp [update, spawn_fn, hq, hv]
  · intro hv
    constructor
    · rcases hi : env.run_install m.id none with e | u <;>
        simp [update, spawn_fn, hq, hv, hi]
    · intro hi
      simp [update, spawn_fn, hq, hv, hi]

/-- C5: after a successful reload, the active selection is exactly the
post-reload module of the captured canonical name when one exists and empty
otherwise, no selection stays no selection, and any post-reload selection is
a member of the freshly reloaded module set. -/
theorem reload_preserves_selection (env : Env) (rl : Readline)
    (newModules : List Module) (hr : env.reload_modules = .ok newModules) :
    (reloadAction env rl).2.2 = .ok ()
    ∧ (reloadAction env rl).2.1.module
        = rl.module.bind (fun m => newModules.find? (fun x => x.canonical == m.canonical))
    ∧ (∀ x, (reloadAction env rl).2.1.module = some x → x ∈ newModules) := by
  unfold reloadAction Readline.take_module Readline.set_module Engine.get
  rw [hr]
  rcases hm : rl.module with _ | m
  · simp
  · rcases hf : newModules.find? (fun x => x.canonical == m.canonical) with _ | mm
    · simp [hf]
    · simp [hf]
      exact List.mem_of_find?_eq_some hf

/-- C10: the reload arm captures the selection by removing it from the session
before the engine reload; when the engine reload fails the command aborts with
the selection already cleared and not restored. -/
theorem reload_failure_clears_selection (env : Env) (rl : Readline) (e : String)
    (hr : env.reload_modules = .error e) :
    reloadAction env rl = ([], { rl with module := none }, .error e) := by
  unfold reloadAction Readline.take_module
  rw [hr]

/-- C1 (counterexample to the claim as stated): mAlpha is installed at the
registry latest version and the ledger marks it outdated; the update command
performs no install call for it, yet the persisted ledger entry for it
changes from outdated to current. -/
theorem up_to_date_ledger_changed_cx :
    demoEnv.query_module mAlpha.id = .ok ⟨some mAlpha.version⟩
    ∧ ((run demoEnv ⟨⟨[mAlpha]⟩, none⟩ .updateCmd).1.all
        (fun e => !e.isInstallCall)) = true
    ∧ demoEnv.autoupdater_load = .ok ⟨["alpha"]⟩
    ∧ (⟨["alpha"]⟩ : AutoUpdater).is_outdated mAlpha.canonical = true
    ∧ Event.ledgerSave ⟨[]⟩ ∈ (run demoEnv ⟨⟨[mAlpha]⟩, none⟩ .updateCmd).1
    ∧ (⟨[]⟩ : AutoUpdater).is_outdated mAlpha.canonical = false :=
  ⟨rfl, rfl, rfl, rfl, by decide, rfl⟩

/-- C1 (amended): an installed non-private module whose installed version
equals the registry latest, and whose id no other listed module shares, gets
no install call during the whole batch update and ends the pass marked as
current (not outdated) in the ledger; its entry is unchanged unless it was
previously marked outdated, in which case the mark is cleared. -/
theorem up_to_date_module (env : Env) (a : AutoUpdater) (m : Module)
    (ms1 ms2 : List Module) (hp : m.isPrivate = false)
    (hq : env.query_module m.id = .ok ⟨some m.version⟩)
    (hid : ∀ x ∈ ms1 ++ m :: ms2, x.id = m.id → x = m) :
    (∀ v, Event.installCall m.id v ∉ (updateLoop env (ms1 ++ m :: ms2) a).1)
    ∧ (updateLoop env (ms1 ++ m :: ms2) a).2.is_outdated m.canonical = false := by
  have hu : update env m = ([Event.queryCall m.id], .ok ()) := by
    simp [update, spawn_fn, hq]
  constructor
  · intro v hmem
    rcases updateLoop_installCall env _ a m.id v hmem with ⟨x, hx, hxp, hxi⟩
    have hxm : x = m := hid x hx (update_installCall_mem env x m.id v hxi).1.symm
    rw [hxm, hu] at hxi
    simp at hxi
  · rw [updateLoop_append, updateLoop_cons,
        updateLoopStep_ok env [] (updateLoop env ms1 a).2 m _ () hp hu]
    exact updateLoop_is_outdated_false env ms2 _ m.canonical
      (updated_is_outdated_self _ _)

/-- C7: during an update command the ledger is loaded once at the start and
persisted exactly once, right after the whole batch pass; a list command loads
the ledger but never persists it. -/
theorem update_ledger_lifecycle (env : Env) (rl : Readline) (a0 : AutoUpdater)
    (hc : env.client_new = .ok ()) (hl : env.autoupdater_load = .ok a0) :
    (∃ rest, (run env rl .updateCmd).1
        = Event.ledgerLoad :: (updateLoop env rl.engine.list a0).1
            ++ Event.ledgerSave (updateLoop env rl.engine.list a0).2 :: rest
        ∧ rest.countP (fun e => e.isLedgerSave) = 0
        ∧ rest.countP (fun e => e.isLedgerLoad) = 0)
    ∧ (run env rl .updateCmd).1.countP (fun e => e.isLedgerLoad) = 1
    ∧ (run env rl .updateCmd).1.countP (fun e => e.isLedgerSave) = 1
    ∧ (∀ sf flag,
        (run env rl (.listCmd sf flag)).1.countP (fun e => e.isLedgerLoad) = 1
        ∧ (run env rl (.listCmd sf flag)).1.countP (fun e => e.isLedgerSave) = 0) := by
  have hloopS : (updateLoop env rl.engine.list a0).1.countP (fun e => e.isLedgerSave) = 0 :=
    List.countP_eq_zero.mpr (fun e he => by
      simp [(updateLoop_no_ledger env _ a0 e he).2])
  have hloopL : (updateLoop env rl.engine.list a0).1.countP (fun e => e.isLedgerLoad) = 0 :=
    List.countP_eq_zero.mpr (fun e he => by
      simp [(updateLoop_no_ledger env _ a0 e he).1])
  have hrest : List.countP (fun e => e.isLedgerSave)
        (Event.reloadTrigger :: (reloadAction env rl).1) = 0
      ∧ List.countP (fun e => e.isLedgerLoad)
        (Event.reloadTrigger :: (reloadAction env rl).1) = 0 := by
    rcases reloadAction_events env rl with hre | hre <;> rw [hre] <;>
      exact ⟨by decide, by decide⟩
  have hlist : ∀ sf flag,
      (run env rl (.listCmd sf flag)).1.countP (fun e => e.isLedgerLoad) = 1
      ∧ (run env rl (.listCmd sf flag)).1.countP (fun e => e.isLedgerSave) = 0 := by
    intro sf flag
    have h1 : (listLines a0 sf flag rl.engine.list).countP (fun e => e.isLedgerLoad) = 0 :=
      List.countP_eq_zero.mpr (fun e he => by
        simp [(listLines_no_ledger a0 sf flag _ e he).1])
    have h2 : (listLines a0 sf flag rl.engine.list).countP (fun e => e.isLedgerSave) = 0 :=
      List.countP_eq_zero.mpr (fun e he => by
        simp [(listLines_no_ledger a0 sf flag _ e he).2])
    have hev : (run env rl (.listCmd sf flag)).1
        = Event.ledgerLoad :: listLines a0 sf flag rl.engine.list := by
      simp [run, hl]
    rw [hev]
    constructor
    · rw [List.countP_cons, h1]
      simp [Event.isLedgerLoad]
    · rw [List.countP_cons, h2]
      simp [Event.isLedgerSave]
  rcases hsave : env.autoupdater_save (updateLoop env rl.engine.list a0).2 with e | u
  · have hev : (run env rl .updateCmd).1
        = Event.ledgerLoad :: (updateLoop env rl.engine.list a0).1
            ++ Event.ledgerSave (updateLoop env rl.engine.list a0).2 :: [] := by
      simp [run, hc, hl, hsave]
    refine ⟨⟨[], hev, rfl, rfl⟩, ?_, ?_, hlist⟩ <;> rw [hev] <;>
      simp only [List.countP_cons, List.countP_append, List.countP_nil,
        hloopS, hloopL] <;>
      simp [Event.isLedgerLoad, Event.isLedgerSave]
  · have hev : (run env rl .updateCmd).1
        = Event.ledgerLoad :: (updateLoop env rl.engine.list a0).1
            ++ Event.ledgerSave (updateLoop env rl.engine.list a0).2
              :: Event.reloadTrigger :: (reloadAction env rl).1 := by
      simp [run, hc, hl, hsave]
    refine ⟨⟨Event.reloadTrigger :: (reloadAction env rl).1, hev, hrest.1, hrest.2⟩,
        ?_, ?_, hlist⟩ <;> rw [hev] <;>
      simp only [List.countP_cons, List.countP_append, List.countP_nil,
        hloopS, hloopL, hrest.1, hrest.2] <;>
      simp [Event.isLedgerLoad, Event.isLedgerSave]

/-- C8: the listing view displays exactly the modules passing the source
filter (exact source-tag match) and the outdated filter (ledger-marked
outdated when the flag is set), in engine iteration order, two lines each. -/
theorem list_filters_exact (au : AutoUpdater) (sf : Option String) (flag : Bool)
    (modules : List Module) :
    listLines au sf flag modules
      = (listDisplayedSpec au sf flag modules).flatMap (renderEntry au) := by
  unfold listLines listDisplayedSpec
  have hexp : modules.flatMap (listEntry au sf flag)
      = modules.flatMap (fun m => listEntry au sf flag m) := rfl
  rw [hexp]
  simp only [listEntry_eq]
  exact flatMap_if_filter _ _ modules

/-- C9: a successful install and an update whose batch pass and ledger save
succeed each end by running the reload subcommand synchronously; the reload
subcommand arm is literally the reload action, and the final session state
and result of install and update are exactly those of that reload. -/
theorem install_update_trigger_reload (env : Env) (rl : Readline)
    (moduleId : String) (version : Option String) (a0 : AutoUpdater)
    (hi : env.run_install moduleId version = .ok ())
    (hc : env.client_new = .ok ()) (hl : env.autoupdater_load = .ok a0)
    (hs : env.autoupdater_save (updateLoop env rl.engine.list a0).2 = .ok ()) :
    run env rl .reloadCmd = reloadAction env rl
    ∧ run env rl (.installCmd moduleId version)
      = (Event.installCall moduleId version :: Event.reloadTrigger
           :: (run env rl .reloadCmd).1,
         (run env rl .reloadCmd).2.1, (run env rl .reloadCmd).2.2)
    ∧ run env rl .updateCmd
      = (Event.ledgerLoad :: (updateLoop env rl.engine.list a0).1
           ++ Event.ledgerSave (updateLoop env rl.engine.list a0).2
             :: Event.reloadTrigger :: (run env rl .reloadCmd).1,
         (run env rl .reloadCmd).2.1, (run env rl .reloadCmd).2.2) := by
  refine ⟨rfl, ?_, ?_⟩
  · simp [run, hi]
  · simp [run, hc, hl, hs]

/-- Witness: the amended C1 statement at a concrete batch. -/
theorem up_to_date_module_witness :
    Event.installCall "alpha-id" none
        ∉ (updateLoop demoEnv ([] ++ mAlpha :: [mBeta]) ⟨["alpha"]⟩).1
    ∧ (updateLoop demoEnv ([] ++ mAlpha :: [mBeta]) ⟨["alpha"]⟩).2.is_outdated
        "alpha" = false := by
  have h := up_to_date_module demoEnv ⟨["alpha"]⟩ mAlpha [] [mBeta] rfl rfl (by decide)
  exact ⟨h.1 none, h.2⟩

/-- Witness: C2 at a concrete batch around gamma. -/
theorem update_no_released_versions_witness :
    update demoEnv mGamma
      = ([Event.queryCall "gamma-id"],
         .error "Module doesn\x27t have any released versions")
    ∧ updateLoop demoEnv ([mAlpha] ++ mGamma :: [mBeta]) ⟨[]⟩
      = ((updateLoop demoEnv [mAlpha] ⟨[]⟩).1
           ++ Event.queryCall "gamma-id"
             :: Event.errorMsg ("Failed to update " ++ mGamma.canonical ++ ": "
                  ++ "Module doesn\x27t have any released versions")
             :: (updateLoop demoEnv [mBeta] (updateLoop demoEnv [mAlpha] ⟨[]⟩).2).1,
         (updateLoop demoEnv [mBeta] (updateLoop demoEnv [mAlpha] ⟨[]⟩).2).2) :=
  update_no_released_versions demoEnv mGamma ⟨[]⟩ [mAlpha] [mBeta] rfl rfl

/-- Witness: C3 at a concrete batch around delta, whose query errors. -/
theorem update_partial_failure_isolated_witness :
    updateLoop demoEnv ([] ++ mDelta :: [mAlpha]) ⟨[]⟩
      = ((updateLoop demoEnv [] ⟨[]⟩).1 ++ [Event.queryCall "delta-id"]
           ++ Event.errorMsg ("Failed to update " ++ mDelta.canonical ++ ": "
                ++ "network unreachable")
             :: (updateLoop demoEnv [mAlpha] (updateLoop demoEnv [] ⟨[]⟩).2).1,
         (updateLoop demoEnv [mAlpha] (updateLoop demoEnv [] ⟨[]⟩).2).2) :=
  update_partial_failure_isolated demoEnv mDelta ⟨[]⟩ [] [mAlpha]
    [Event.queryCall "delta-id"] "network unreachable" rfl rfl

/-- Witness: C4 at a concrete batch around the private module. -/
theorem private_module_skipped_witness :
    updateLoop demoEnv ([] ++ mPriv :: [mAlpha]) ⟨[]⟩
      = ((updateLoop demoEnv [] ⟨[]⟩).1
           ++ Event.debugMsg (mPriv.canonical ++ " is a private module, skipping")
             :: (updateLoop demoEnv [mAlpha] (updateLoop demoEnv [] ⟨[]⟩).2).1,
         (updateLoop demoEnv [mAlpha] (updateLoop demoEnv [] ⟨[]⟩).2).2) :=
  private_module_skipped demoEnv mPriv ⟨[]⟩ [] [mAlpha] rfl

/-- Witness: C5 at a concrete session whose stale selection is re-resolved. -/
theorem reload_preserves_selection_witness :
    (reloadAction demoEnv ⟨⟨[mAlphaOld]⟩, some mAlphaOld⟩).2.2 = .ok ()
    ∧ (reloadAction demoEnv ⟨⟨[mAlphaOld]⟩, some mAlphaOld⟩).2.1.module
        = (some mAlphaOld).bind
            (fun m => [mAlpha].find? (fun x => x.canonical == m.canonical)) := by
  have h := reload_preserves_selection demoEnv ⟨⟨[mAlphaOld]⟩, some mAlphaOld⟩ [mAlpha] rfl
  exact ⟨h.1, h.2.1⟩

/-- Witness: C6 at beta, whose latest version differs. -/
theorem update_exact_equality_witness :
    Event.installCall "beta-id" none ∈ (update demoEnv mBeta).1
    ∧ update demoEnv mBeta
      = ([Event.queryCall "beta-id", Event.installCall "beta-id" none,
          Event.successMsg ("Updated " ++ mBeta.canonical ++ ": "
            ++ reprStr mBeta.version ++ " -> " ++ reprStr "2.0")], .ok ()) := by
  have h := (update_exact_equality demoEnv mBeta "2.0" rfl).2 (by decide)
  exact ⟨h.1, h.2 rfl⟩

/-- Witness: C7 at the concrete four-module session. -/
theorem update_ledger_lifecycle_witness :
    (run demoEnv rlDemo .updateCmd).1.countP (fun e => e.isLedgerLoad) = 1
    ∧ (run demoEnv rlDemo .updateCmd).1.countP (fun e => e.isLedgerSave) = 1
    ∧ (run demoEnv rlDemo (.listCmd (some "core") true)).1.countP
        (fun e => e.isLedgerLoad) = 1
    ∧ (run demoEnv rlDemo (.listCmd (some "core") true)).1.countP
        (fun e => e.isLedgerSave) = 0 := by
  have h := update_ledger_lifecycle demoEnv rlDemo ⟨["alpha"]⟩ rfl rfl
  exact ⟨h.2.1, h.2.2.1, (h.2.2.2 (some "core") true).1, (h.2.2.2 (some "core") true).2⟩

/-- Witness: C9 at the concrete session, with gamma failing inside the batch. -/
theorem install_update_trigger_reload_witness :
    run demoEnv rlDemo .reloadCmd = reloadAction demoEnv rlDemo
    ∧ run demoEnv rlDemo (.installCmd "beta-id" none)
      = (Event.installCall "beta-id" none :: Event.reloadTrigger
           :: (run demoEnv rlDemo .reloadCmd).1,
         (run demoEnv rlDemo .reloadCmd).2.1, (run demoEnv rlDemo .reloadCmd).2.2)
    ∧ run demoEnv rlDemo .updateCmd
      = (Event.ledgerLoad :: (updateLoop demoEnv rlDemo.engine.list ⟨["alpha"]⟩).1
           ++ Event.ledgerSave (updateLoop demoEnv rlDemo.engine.list ⟨["alpha"]⟩).2
             :: Event.reloadTrigger :: (run demoEnv rlDemo .reloadCmd).1,
         (run demoEnv rlDemo .reloadCmd).2.1, (run demoEnv rlDemo .reloadCmd).2.2) :=
  install_update_trigger_reload demoEnv rlDemo "beta-id" none ⟨["alpha"]⟩ rfl rfl rfl rfl

/-- Witness: C10 at a concrete session whose engine reload fails. -/
theorem reload_failure_clears_selection_witness :
    reloadAction failEnv ⟨⟨[mAlphaOld]⟩, some mAlphaOld⟩
      = ([], ⟨⟨[mAlphaOld]⟩, none⟩, .error "reload failed") :=
  reload_failure_clears_selection failEnv ⟨⟨[mAlphaOld]⟩, some mAlphaOld⟩
    "reload failed" rfl

end ModCmd
